import Mathlib

/-!
# Verification of the AgriTech crop-recommendation / price-forecast core

Shallow embedding, over exact rationals, of the heuristic scoring and
forecasting logic of the repository:

* `recommend_crops`   — `src/final/backend/backend.py`, `AgriTechAPI.recommend_crops`
* `predict_crop_prices` — `src/final/backend/backend.py`, `AgriTechAPI.predict_crop_prices`
* `predict_crop_prices_w` — `src/backend/app.py`, `AgriTechAPI.predict_crop_prices`
  (the variant with a per-day weather adjustment factor)
* `forecast_price`    — the `/forecast-price` endpoint validation logic
* `cropAnalysisTarget` — the crop-analysis branch of the `/recommend-crop` endpoint

Python machine numbers are embedded as `ℚ`; `random` draws (market
perturbation, daily volatility) and external weather data are explicit
function parameters, so every theorem quantifies over all draws.
Python's `round(x, n)` (round-half-to-even) is embedded exactly as
`round1` / `round2` below.  Calendar dates are embedded as day ordinals
(`ℕ`), with the month of an ordinal supplied by an abstract calendar
function `monthOf : ℕ → ℕ`, so the date theorems hold for every calendar.
-/

namespace AgriTech

/-- Round-half-to-even to the nearest integer, as Python's builtin `round`
does on the embedded numeric values. -/
def rnearest (q : ℚ) : ℤ :=
  if q - ⌊q⌋ < 1/2 then ⌊q⌋
  else if 1/2 < q - ⌊q⌋ then ⌊q⌋ + 1
  else if ⌊q⌋ % 2 = 0 then ⌊q⌋ else ⌊q⌋ + 1

/-- Python `round(q, 1)`. -/
def round1 (q : ℚ) : ℚ := (rnearest (10 * q) : ℚ) / 10

/-- Python `round(q, 2)`. -/
def round2 (q : ℚ) : ℚ := (rnearest (100 * q) : ℚ) / 100

theorem floor_le_rnearest (q : ℚ) : ⌊q⌋ ≤ rnearest q := by
  unfold rnearest
  split
  · exact le_refl _
  · split
    · omega
    · split <;> omega

theorem rnearest_le_ceil (q : ℚ) : rnearest q ≤ ⌈q⌉ := by
  unfold rnearest
  split
  · exact Int.floor_le_ceil q
  · have h1 : (1 : ℚ)/2 ≤ q - ⌊q⌋ := le_of_not_lt (by assumption)
    have h2 : (⌊q⌋ : ℚ) < q := by linarith
    have h3 : ⌊q⌋ < ⌈q⌉ := Int.lt_ceil.mpr h2
    split
    · omega
    · split <;> omega

theorem rnearest_intCast (n : ℤ) : rnearest (n : ℚ) = n := by
  unfold rnearest
  rw [Int.floor_intCast]
  simp

/-- If `k ≤ 100 * y` with `k` an integer, then `k / 100 ≤ round2 y`.
This is the exact form needed for the price-floor invariant. -/
theorem le_round2 {k : ℤ} {y : ℚ} (h : (k : ℚ) ≤ 100 * y) :
    (k : ℚ) / 100 ≤ round2 y := by
  unfold round2
  have h1 : k ≤ ⌊100 * y⌋ := Int.le_floor.mpr h
  have h2 : k ≤ rnearest (100 * y) := le_trans h1 (floor_le_rnearest _)
  have h3 : (k : ℚ) ≤ (rnearest (100 * y) : ℚ) := by exact_mod_cast h2
  linarith

/-- `round1` maps `[30, 100]` into `[30, 100]`. -/
theorem round1_mem_Icc {x : ℚ} (h1 : 30 ≤ x) (h2 : x ≤ 100) :
    30 ≤ round1 x ∧ round1 x ≤ 100 := by
  unfold round1
  have hlo : (300 : ℤ) ≤ ⌊10 * x⌋ := Int.le_floor.mpr (by push_cast; linarith)
  have hhi : ⌈10 * x⌉ ≤ (1000 : ℤ) := Int.ceil_le.mpr (by push_cast; linarith)
  have h3 : (300 : ℤ) ≤ rnearest (10 * x) := le_trans hlo (floor_le_rnearest _)
  have h4 : rnearest (10 * x) ≤ (1000 : ℤ) := le_trans (rnearest_le_ceil _) hhi
  have h5 : (300 : ℚ) ≤ (rnearest (10 * x) : ℚ) := by exact_mod_cast h3
  have h6 : ((rnearest (10 * x) : ℚ)) ≤ 1000 := by exact_mod_cast h4
  constructor <;> linarith

/-!
## Data model

Weather snapshots are dictionaries whose keys may be absent; each field is
therefore an `Option ℚ`.  A crop's weather-tolerance table (dictionary
`weather_requirements`, present only for some crops) is an `Option WeatherReq`.
-/

/-- A `min`/`max`/`optimal` band, e.g. `{'min': 20, 'max': 35, 'optimal': 25}`. -/
structure Range3 where
  min : ℚ
  max : ℚ
  optimal : ℚ
deriving DecidableEq

/-- The `weather_requirements` dictionary of a crop
(`src/final/backend/backend.py`, inside `crop_suitability`). -/
structure WeatherReq where
  temperature : Range3
  humidity : Range3
  rainfall : Range3
deriving DecidableEq

/-- A weather snapshot as returned by the weather service; keys may be absent.
The `description` / `wind_speed` string fields play no role in scoring and are
omitted. -/
structure WeatherData where
  temperature : Option ℚ
  humidity : Option ℚ
  rainfall : Option ℚ
deriving DecidableEq

/-- One entry of the `crop_suitability` dictionary of
`AgriTechAPI.recommend_crops` (`src/final/backend/backend.py` lines 442-513). -/
structure CropData where
  name : String
  seasons : List ℕ
  states : List String
  base_score : ℚ
  weather_requirements : Option WeatherReq
deriving DecidableEq

def riceData : CropData :=
  { name := "Rice"
    seasons := [6, 7, 8, 9, 10, 11]
    states := ["West Bengal", "Punjab", "Andhra Pradesh", "Tamil Nadu", "Karnataka"]
    base_score := 85
    weather_requirements := some
      { temperature := ⟨20, 35, 25⟩, humidity := ⟨60, 90, 75⟩, rainfall := ⟨100, 250, 150⟩ } }

def wheatData : CropData :=
  { name := "Wheat"
    seasons := [11, 12, 1, 2, 3, 4]
    states := ["Punjab", "Haryana", "Uttar Pradesh", "Madhya Pradesh", "Rajasthan"]
    base_score := 82
    weather_requirements := some
      { temperature := ⟨15, 30, 22⟩, humidity := ⟨40, 70, 55⟩, rainfall := ⟨50, 150, 100⟩ } }

def cottonData : CropData :=
  { name := "Cotton"
    seasons := [6, 7, 8, 9, 10]
    states := ["Gujarat", "Maharashtra", "Andhra Pradesh", "Punjab", "Haryana"]
    base_score := 78
    weather_requirements := some
      { temperature := ⟨21, 37, 28⟩, humidity := ⟨50, 80, 65⟩, rainfall := ⟨75, 200, 125⟩ } }

def sugarcaneData : CropData :=
  { name := "Sugarcane"
    seasons := [1, 2, 3, 4, 5, 6, 7, 8, 9, 10, 11, 12]
    states := ["Uttar Pradesh", "Maharashtra", "Karnataka", "Tamil Nadu"]
    base_score := 75
    weather_requirements := some
      { temperature := ⟨20, 35, 28⟩, humidity := ⟨60, 85, 70⟩, rainfall := ⟨150, 300, 200⟩ } }

def maizeData : CropData :=
  { name := "Maize"
    seasons := [6, 7, 8, 9, 10]
    states := ["Karnataka", "Andhra Pradesh", "Tamil Nadu", "Rajasthan"]
    base_score := 72
    weather_requirements := none }

def onionData : CropData :=
  { name := "Onion"
    seasons := [6, 7, 8, 9, 11, 12, 1]
    states := ["Maharashtra", "Karnataka", "Gujarat", "Madhya Pradesh"]
    base_score := 70
    weather_requirements := none }

def potatoData : CropData :=
  { name := "Potato"
    seasons := [10, 11, 12, 1, 2, 3]
    states := ["Uttar Pradesh", "West Bengal", "Bihar", "Punjab"]
    base_score := 68
    weather_requirements := none }

def tomatoData : CropData :=
  { name := "Tomato"
    seasons := [6, 7, 8, 9, 10, 11, 12]
    states := ["Karnataka", "Andhra Pradesh", "Maharashtra", "Gujarat"]
    base_score := 65
    weather_requirements := none }

def soybeanData : CropData :=
  { name := "Soybean"
    seasons := [6, 7, 8, 9]
    states := ["Madhya Pradesh", "Maharashtra", "Rajasthan"]
    base_score := 74
    weather_requirements := none }

def groundnutData : CropData :=
  { name := "Groundnut"
    seasons := [6, 7, 8, 9]
    states := ["Gujarat", "Andhra Pradesh", "Tamil Nadu", "Karnataka"]
    base_score := 71
    weather_requirements := none }

/-- The `crop_suitability` dictionary, in registration (insertion) order. -/
def crop_suitability : List CropData :=
  [riceData, wheatData, cottonData, sugarcaneData, maizeData,
   onionData, potatoData, tomatoData, soybeanData, groundnutData]

/-- The registered crop names, in registration order. -/
def cropNames : List String := crop_suitability.map (fun c => c.name)

/-- The `yield_estimates` dictionary with its `.get(crop, 2.0)` default
(`src/final/backend/backend.py` lines 580-586). -/
def yield_estimates (crop : String) : ℚ :=
  if crop = "Rice" then 21/5
  else if crop = "Wheat" then 7/2
  else if crop = "Maize" then 31/10
  else if crop = "Cotton" then 21/10
  else if crop = "Sugarcane" then 75
  else if crop = "Onion" then 20
  else if crop = "Potato" then 25
  else if crop = "Tomato" then 28
  else if crop = "Soybean" then 9/5
  else if crop = "Groundnut" then 11/5
  else 2

/-!
## Suitability scorer (`AgriTechAPI.recommend_crops`, `src/final/backend/backend.py`)

Python truthiness is embedded faithfully: `if month and ...` treats both
`None` and `0` as falsy, and `if state and ...` treats both `None` and the
empty string as falsy.
-/

/-- Season adjustment (`backend.py` lines 520-524):
`if month and month in data['seasons']: score += 15 elif month: score -= 10`. -/
def seasonAdj (month : Option ℕ) (seasons : List ℕ) : ℚ :=
  match month with
  | none => 0
  | some m => if m ≠ 0 then (if m ∈ seasons then 15 else -10) else 0

/-- Region adjustment (`backend.py` lines 526-530):
`if state and state in data['states']: score += 10 elif state: score -= 5`. -/
def stateAdj (state : Option String) (states : List String) : ℚ :=
  match state with
  | none => 0
  | some s => if s ≠ "" then (if s ∈ states then 10 else -5) else 0

/-- Weather suitability scoring (`backend.py` lines 532-570).  Applied only
when both a weather snapshot and the crop's `weather_requirements` are
present; each dimension contributes independently, and a key missing from
the snapshot contributes 0. -/
def weatherScore (w : Option WeatherData) (req : Option WeatherReq) : ℚ :=
  match w, req with
  | some wd, some r =>
      let tempScore : ℚ :=
        match wd.temperature with
        | none => 0
        | some t =>
            if r.temperature.min ≤ t ∧ t ≤ r.temperature.max then
              10 + (if |t - r.temperature.optimal| ≤ 3 then 5 else 0)
            else 0
      let humScore : ℚ :=
        match wd.humidity with
        | none => 0
        | some h =>
            if r.humidity.min ≤ h ∧ h ≤ r.humidity.max then
              8 + (if |h - r.humidity.optimal| ≤ 10 then 4 else 0)
            else 0
      let rainScore : ℚ :=
        match wd.rainfall with
        | none => 0
        | some rn =>
            if 0 < rn then
              7 + (if r.rainfall.min ≤ rn ∧ rn ≤ r.rainfall.max then 5 else 0)
            else 0
      tempScore + humScore + rainScore
  | _, _ => 0

/-- The raw (pre-clamp) score of one crop: base score plus the season,
region, weather and market adjustments, accumulated in source order
(`backend.py` lines 518-574).  `mf` is the crop's
`np.random.uniform(-5, 5)` market-factor draw, passed in explicitly. -/
def scoreCropPre (month : Option ℕ) (state : Option String) (w : Option WeatherData)
    (mf : ℚ) (c : CropData) : ℚ :=
  c.base_score + seasonAdj month c.seasons + stateAdj state c.states
    + weatherScore w c.weather_requirements + mf

/-- The clamped score: `score = max(30, min(100, score))` (`backend.py` line 577). -/
def scoreCrop (month : Option ℕ) (state : Option String) (w : Option WeatherData)
    (mf : ℚ) (c : CropData) : ℚ :=
  max 30 (min 100 (scoreCropPre month state w mf c))

/-- One emitted recommendation record (`backend.py` lines 598-609).  The
free-text `recommendation_reason` and `weather_summary` fields are omitted
as they carry no scored data. -/
structure Rec where
  crop : String
  suitability_score : ℚ
  estimated_yield : ℚ
  season_match : Option Bool
  region_suitable : Option Bool
deriving DecidableEq

/-- Build the recommendation record for one crop:
`'suitability_score': round(score, 1)` etc. -/
def mkRec (month : Option ℕ) (state : Option String) (w : Option WeatherData)
    (mf : ℚ) (c : CropData) : Rec :=
  { crop := c.name
    suitability_score := round1 (scoreCrop month state w mf c)
    estimated_yield := yield_estimates c.name
    season_match :=
      match month with
      | none => none
      | some m => if m ≠ 0 then some (decide (m ∈ c.seasons)) else none
    region_suitable :=
      match state with
      | none => none
      | some s => if s ≠ "" then some (decide (s ∈ c.states)) else none }

/-- The unsorted recommendation list, in crop registration order.  The
per-crop market draw is indexed by crop name (each crop occurs once in the
table, so this names exactly one `np.random.uniform(-5, 5)` draw per loop
iteration). -/
def allRecs (month : Option ℕ) (state : Option String) (w : Option WeatherData)
    (market : String → ℚ) : List Rec :=
  crop_suitability.map (fun c => mkRec month state w (market c.name) c)

/-- Stable descending insertion: `a` is placed before the first element
whose score is `≤` its own.  Together with `sortRecs` this is exactly the
specification of CPython's stable `list.sort(key=..., reverse=True)` on
line 612 of `backend.py`: descending in `suitability_score`, ties kept in
original order. -/
def insertRec (a : Rec) : List Rec → List Rec
  | [] => [a]
  | b :: l =>
      if b.suitability_score ≤ a.suitability_score then a :: b :: l
      else b :: insertRec a l

/-- Stable sort by `suitability_score`, descending. -/
def sortRecs : List Rec → List Rec
  | [] => []
  | a :: l => insertRec a (sortRecs l)

/-- `AgriTechAPI.recommend_crops`: score every crop, sort descending by
suitability score (stable), return the top 5 (`backend.py` lines 611-614). -/
def recommend_crops (month : Option ℕ) (state : Option String)
    (w : Option WeatherData) (market : String → ℚ) : List Rec :=
  (sortRecs (allRecs month state w market)).take 5

/-- The weather-fetch wrapper in `recommend_crops` (`backend.py` lines
432-439): the call to the weather service is guarded by `try/except`, so a
failing fetch leaves `weather_data = None` and scoring proceeds without a
weather adjustment. -/
def recommendCropsFetch (fetch : Except String WeatherData) (month : Option ℕ)
    (state : Option String) (market : String → ℚ) : List Rec :=
  recommend_crops month state fetch.toOption market

/-!
## Price forecaster (`AgriTechAPI.predict_crop_prices`)

Embedded for both variants: `src/final/backend/backend.py` lines 356-416
(no weather factor) and `src/backend/app.py` lines 90-193 (per-day weather
factor when a district is supplied).  The `datetime.now()` call time is the
day ordinal `d0`; day `i` of the forecast has date ordinal `d0 + i`, and
`monthOf` abstracts extracting `.month` from a date ordinal.
-/

/-- The `base_prices` dictionary, with the `base_price = 2000` default for
crops not in the table (`backend.py` lines 369-379).  Python prices are
`int`s, hence codomain `ℤ`. -/
def base_prices (crop : String) : ℤ :=
  if crop = "Rice" then 2200
  else if crop = "Wheat" then 1950
  else if crop = "Maize" then 1650
  else if crop = "Cotton" then 5200
  else if crop = "Sugarcane" then 350
  else if crop = "Onion" then 1400
  else if crop = "Potato" then 900
  else if crop = "Tomato" then 1800
  else if crop = "Soybean" then 4200
  else if crop = "Groundnut" then 4800
  else 2000

/-- Seasonal factor by crop category and target month
(`backend.py` lines 388-394). -/
def seasonal_factor (crop : String) (month : ℕ) : ℚ :=
  if crop = "Rice" ∨ crop = "Wheat" then
    if month ∈ [10, 11, 12, 1, 2] then 11/10 else 19/20
  else if crop = "Cotton" then
    if month ∈ [3, 4, 5] then 21/20 else 1
  else
    if month ∈ [6, 7, 8, 9] then 27/25 else 23/25

/-- One emitted forecast entry: date ordinal, price (2 decimals), weekday.
The weekday string of `future_date.strftime('%A')` is embedded as the
ordinal's residue mod 7. -/
structure ForecastPoint where
  date : ℕ
  price : ℚ
  day : ℕ
deriving DecidableEq

/-- The forecast entry for loop index `i` (`backend.py` lines 385-410):
`trend_factor = 1 + i * 0.002`, `volatility` is the day's
`np.random.normal(0, 0.03)` draw, price floored at `base_price * 0.7` and
rounded to 2 decimals. -/
def mkForecastPoint (crop : String) (d0 : ℕ) (monthOf : ℕ → ℕ) (vol : ℕ → ℚ)
    (i : ℕ) : ForecastPoint :=
  let date := d0 + i
  let predicted : ℚ :=
    (base_prices crop : ℚ) * seasonal_factor crop (monthOf date)
      * (1 + i * (1/500)) * (1 + vol i)
  { date := date
    price := round2 (max predicted ((7 * (base_prices crop : ℚ)) / 10))
    day := date % 7 }

/-- `AgriTechAPI.predict_crop_prices` (`src/final/backend/backend.py`):
`for i in range(1, days + 1)` append the day's forecast entry. -/
def predict_crop_prices (crop : String) (days : ℕ) (d0 : ℕ) (monthOf : ℕ → ℕ)
    (vol : ℕ → ℚ) : List ForecastPoint :=
  (List.range days).map (fun j => mkForecastPoint crop d0 monthOf vol (j + 1))

/-- The weather adjustment factor of `src/backend/app.py` lines 138-153:
starts at 1.0, `*= 0.95` on extreme temperature (default 25 when the key is
absent), `*= 0.9` on heavy rain (default 0).  `none` is the no-weather-data
path, where the factor stays 1.0. -/
def weather_factor (wd : Option WeatherData) : ℚ :=
  match wd with
  | none => 1
  | some w =>
      let temp := w.temperature.getD 25
      let rain := w.rainfall.getD 0
      (if 35 < temp ∨ temp < 15 then (19/20 : ℚ) else 1)
        * (if 50 < rain then (9/10 : ℚ) else 1)

/-- Truthiness of an optional string (`if district:` — `None` and `''` falsy). -/
def truthyStr (s : Option String) : Bool :=
  match s with
  | none => false
  | some v => v ≠ ""

/-- `AgriTechAPI.predict_crop_prices` of `src/backend/app.py` (lines
116-175): the weather service is consulted per loop iteration when a
district is supplied; `wfetch i` is the (possibly absent) weather snapshot
obtained on iteration `i`.  The optional downstream Prophet enhancement is
an external statistical model and is not part of the per-day computation
embedded here. -/
def predict_crop_prices_w (crop : String) (days : ℕ) (district : Option String)
    (wfetch : ℕ → Option WeatherData) (d0 : ℕ) (monthOf : ℕ → ℕ)
    (vol : ℕ → ℚ) : List ForecastPoint :=
  (List.range days).map (fun j =>
    let i := j + 1
    let date := d0 + i
    let wd := if truthyStr district then wfetch i else none
    let predicted : ℚ :=
      (base_prices crop : ℚ) * seasonal_factor crop (monthOf date)
        * (1 + i * (1/500)) * weather_factor wd * (1 + vol i)
    { date := date
      price := round2 (max predicted ((7 * (base_prices crop : ℚ)) / 10))
      day := date % 7 })

/-- `WeatherService.get_weather_by_district`
(`src/backend/app/services/weather_service.py` lines 38-65): every
exception from the provider call is caught and turned into `None`. -/
def get_weather_by_district (res : Except String WeatherData) : Option WeatherData :=
  res.toOption

/-- Python `str.lower()`, applied character-wise (`Char.toLower` is the
per-character lowering; the strings compared in this code are ASCII crop
names, on which this agrees with Python). -/
def strLower (s : String) : String := ⟨s.data.map Char.toLower⟩

/-- Python `str.strip()`: remove leading and trailing whitespace. -/
def strStrip (s : String) : String :=
  ⟨((s.data.dropWhile Char.isWhitespace).reverse.dropWhile Char.isWhitespace).reverse⟩

/-!
## The `/forecast-price` endpoint validation

`forecast_price` in `src/final/backend/backend.py` lines 710-764 (the
validation block, lines 727-741, is identical in `src/backend/app.py`).
The JSON `days` field is either an integer or some other JSON value
(`PyVal.other`, rejected by the `isinstance(days, int)` check); an absent
field defaults to `int 15` at the call site (`data.get('days', 15)`).
-/

inductive PyVal where
  | int : ℤ → PyVal
  | other : PyVal
deriving DecidableEq

/-- Endpoint outcome: `.error (status, message)` or `.ok` with the forecast
series (the summary statistics assembled around the series are omitted). -/
def forecast_price (crop : String) (days : PyVal) (d0 : ℕ) (monthOf : ℕ → ℕ)
    (vol : ℕ → ℚ) : Except (ℕ × String) (List ForecastPoint) :=
  let cropT := strStrip crop
  if cropT = "" then .error (400, "Crop name is required")
  else
    match days with
    | .other => .error (400, "Days must be between 1 and 30")
    | .int n =>
        if n < 1 ∨ 30 < n then .error (400, "Days must be between 1 and 30")
        else
          let preds := predict_crop_prices cropT n.toNat d0 monthOf vol
          if preds = [] then .error (500, "Failed to generate predictions")
          else .ok preds

/-!
## The crop-analysis branch of `/recommend-crop`

`recommend_crop` in `src/final/backend/backend.py` lines 792-835: search the
top-5 recommendations for the requested crop case-insensitively; when it is
not found, emit the hard-coded default analysis record.
-/

/-- The default analysis record for a crop not found among the
recommendations (`backend.py` lines 813-822). -/
def defaultRec (crop : String) : Rec :=
  { crop := crop
    suitability_score := 60
    estimated_yield := 5/2
    season_match := none
    region_suitable := none }

/-- `for rec in crop_analysis: if rec['crop'].lower() == crop.lower():
target_crop = rec; break` followed by the default on "not found". -/
def cropAnalysisTarget (crop : String) (recs : List Rec) : Rec :=
  (recs.find? (fun r => strLower r.crop == strLower crop)).getD (defaultRec crop)

/-!
## Structural lemmas about the stable descending sort
-/

/-- The filter "has suitability score `q`", used to state sort stability. -/
def scoreEq (q : ℚ) : Rec → Bool := fun r => decide (r.suitability_score = q)

theorem insertRec_perm (a : Rec) (l : List Rec) : List.Perm (insertRec a l) (a :: l) := by
  induction l with
  | nil => simp [insertRec]
  | cons b t ih =>
      rw [insertRec]
      split
      · exact List.Perm.refl _
      · exact (List.Perm.cons b ih).trans (List.Perm.swap a b t)

theorem sortRecs_perm (l : List Rec) : List.Perm (sortRecs l) l := by
  induction l with
  | nil => exact List.Perm.refl _
  | cons a t ih => exact (insertRec_perm a (sortRecs t)).trans (List.Perm.cons a ih)

theorem mem_insertRec {x a : Rec} {l : List Rec} :
    x ∈ insertRec a l ↔ x = a ∨ x ∈ l := by
  rw [(insertRec_perm a l).mem_iff, List.mem_cons]

theorem insertRec_pairwise (a : Rec) (l : List Rec)
    (h : l.Pairwise (fun x y => y.suitability_score ≤ x.suitability_score)) :
    (insertRec a l).Pairwise (fun x y => y.suitability_score ≤ x.suitability_score) := by
  induction l with
  | nil => simp [insertRec]
  | cons b t ih =>
      rcases List.pairwise_cons.mp h with ⟨hb, ht⟩
      rw [insertRec]
      split
      next hba =>
        refine List.pairwise_cons.mpr ⟨?_, h⟩
        intro y hy
        rcases List.mem_cons.mp hy with rfl | hyt
        · exact hba
        · exact le_trans (hb y hyt) hba
      next hba =>
        refine List.pairwise_cons.mpr ⟨?_, ih ht⟩
        intro y hy
        rcases mem_insertRec.mp hy with rfl | hyt
        · exact le_of_lt (lt_of_not_le hba)
        · exact hb y hyt

theorem sortRecs_pairwise (l : List Rec) :
    (sortRecs l).Pairwise (fun x y => y.suitability_score ≤ x.suitability_score) := by
  induction l with
  | nil => simp [sortRecs]
  | cons a t ih => exact insertRec_pairwise a (sortRecs t) ih

theorem filter_insertRec (q : ℚ) (a : Rec) (l : List Rec) :
    (insertRec a l).filter (scoreEq q)
      = if a.suitability_score = q then a :: l.filter (scoreEq q)
        else l.filter (scoreEq q) := by
  induction l with
  | nil => by_cases ha : a.suitability_score = q <;> simp [insertRec, scoreEq, ha]
  | cons b t ih =>
      rw [insertRec]
      by_cases hba : b.suitability_score ≤ a.suitability_score
      · rw [if_pos hba]
        by_cases ha : a.suitability_score = q <;>
          simp [List.filter_cons, scoreEq, ha]
      · rw [if_neg hba]
        have hab : a.suitability_score < b.suitability_score := lt_of_not_le hba
        by_cases ha : a.suitability_score = q
        · have hbq : ¬ b.suitability_score = q := by
            rw [← ha]; exact ne_of_gt hab
          simp [List.filter_cons, scoreEq, hbq, ha, ih]
        · simp [List.filter_cons, scoreEq, ha, ih]

/-- Stability of the sort: for each score value, the sublist of records
carrying that score is unchanged, i.e. equal-score records keep their
original relative (registration) order. -/
theorem filter_sortRecs (q : ℚ) (l : List Rec) :
    (sortRecs l).filter (scoreEq q) = l.filter (scoreEq q) := by
  induction l with
  | nil => rfl
  | cons a t ih =>
      rw [sortRecs, filter_insertRec]
      by_cases ha : a.suitability_score = q <;> simp [List.filter_cons, scoreEq, ha, ih]

theorem length_sortRecs (l : List Rec) : (sortRecs l).length = l.length :=
  (sortRecs_perm l).length_eq

theorem recommend_crops_length (month : Option ℕ) (state : Option String)
    (w : Option WeatherData) (market : String → ℚ) :
    (recommend_crops month state w market).length = 5 := by
  unfold recommend_crops
  rw [List.length_take, length_sortRecs]
  simp [allRecs, crop_suitability]

/-- Every emitted recommendation names a crop of the reference table. -/
theorem mem_recommend_crop_names {r : Rec} {month : Option ℕ} {state : Option String}
    {w : Option WeatherData} {market : String → ℚ}
    (h : r ∈ recommend_crops month state w market) : r.crop ∈ cropNames := by
  have h1 : r ∈ sortRecs (allRecs month state w market) := List.mem_of_mem_take h
  have h2 : r ∈ allRecs month state w market := (sortRecs_perm _).mem_iff.mp h1
  rcases List.mem_map.mp h2 with ⟨c, hc, rfl⟩
  exact List.mem_map_of_mem (fun c => c.name) hc

/-!
## Claim C1
-/

/-- C1: for every combination of inputs (month, state, weather data, and any
value of each crop's random market perturbation), every `suitability_score`
emitted by `recommend_crops` lies in the closed interval `[30, 100]`. -/
theorem c1_suitability_score_bounded (month : Option ℕ) (state : Option String)
    (w : Option WeatherData) (market : String → ℚ) :
    ∀ r ∈ recommend_crops month state w market,
      30 ≤ r.suitability_score ∧ r.suitability_score ≤ 100 := by
  intro r h
  have h2 : r ∈ allRecs month state w market :=
    (sortRecs_perm _).mem_iff.mp (List.mem_of_mem_take h)
  rcases List.mem_map.mp h2 with ⟨c, _, rfl⟩
  have h30 : (30 : ℚ) ≤ scoreCrop month state w (market c.name) c := le_max_left _ _
  have h100 : scoreCrop month state w (market c.name) c ≤ 100 :=
    max_le (by norm_num) (min_le_left _ _)
  exact round1_mem_Icc h30 h100

/-- Witness for C1: the Rice record emitted with no context and zero market
draws has score 85, inside `[30, 100]`. -/
theorem c1_witness :
    30 ≤ (Rec.mk "Rice" 85 (21/5) none none).suitability_score
      ∧ (Rec.mk "Rice" 85 (21/5) none none).suitability_score ≤ 100 :=
  c1_suitability_score_bounded none none none (fun _ => 0)
    (Rec.mk "Rice" 85 (21/5) none none) (by with_unfolding_all decide)

/-!
## Claim C4
-/

/-- C4: the returned recommendation list is the first 5 elements of the
scored profiles sorted by final suitability score in descending order by a
stable sort: the sorted list is a permutation of the registration-ordered
scored list, is pairwise descending in score, and for every score value the
records carrying that score keep their registration order. -/
theorem c4_ranking_stable_sort (month : Option ℕ) (state : Option String)
    (w : Option WeatherData) (market : String → ℚ) :
    recommend_crops month state w market
        = (sortRecs (allRecs month state w market)).take 5
      ∧ List.Perm (sortRecs (allRecs month state w market))
          (allRecs month state w market)
      ∧ (sortRecs (allRecs month state w market)).Pairwise
          (fun x y => y.suitability_score ≤ x.suitability_score)
      ∧ ∀ q : ℚ, (sortRecs (allRecs month state w market)).filter (scoreEq q)
          = (allRecs month state w market).filter (scoreEq q) :=
  ⟨rfl, sortRecs_perm _, sortRecs_pairwise _, fun q => filter_sortRecs q _⟩

/-!
## Claim C5
-/

/-- C5: provided a supplied month is nonzero and a supplied state is not the
empty string (the only values the Python truthiness guard conflates with
"omitted", and both excluded by endpoint validation), the raw score is the
base score plus exactly `+15 / -10 / 0` for the month and, independently,
exactly `+10 / -5 / 0` for the state, on top of the weather and market
terms. -/
theorem c5_season_region_adjustments (c : CropData) (month : Option ℕ)
    (state : Option String) (w : Option WeatherData) (mf : ℚ)
    (hm : month ≠ some 0) (hs : state ≠ some "") :
    scoreCropPre month state w mf c
      = c.base_score
        + (match month with
           | none => 0
           | some m => if m ∈ c.seasons then (15 : ℚ) else -10)
        + (match state with
           | none => 0
           | some s => if s ∈ c.states then (10 : ℚ) else -5)
        + weatherScore w c.weather_requirements + mf := by
  unfold scoreCropPre seasonAdj stateAdj
  rcases month with _ | m
  · rcases state with _ | s
    · rfl
    · have hs2 : s ≠ "" := fun hempty => hs (by rw [hempty])
      simp [hs2]
  · have hm2 : m ≠ 0 := fun hzero => hm (by rw [hzero])
    rcases state with _ | s
    · simp [hm2]
    · have hs2 : s ≠ "" := fun hempty => hs (by rw [hempty])
      simp [hm2, hs2]

/-- Witness for C5: Rice in June from Punjab gets `85 + 15 + 10 = 110`
before clamping. -/
theorem c5_witness :
    scoreCropPre (some 6) (some "Punjab") none 0 riceData = 110 := by
  rw [c5_season_region_adjustments riceData (some 6) (some "Punjab") none 0
      (by decide) (by decide)]
  with_unfolding_all decide

/-!
## Claim C6
-/

/-- Stated from the spec's wording of the temperature contribution:
`+10` if within `[min, max]`, `+5` more if within 3 of optimal, 0 outside
the band or when the key is absent. -/
def tempContribSpec (wd : WeatherData) (r : WeatherReq) : ℚ :=
  match wd.temperature with
  | none => 0
  | some t =>
      if r.temperature.min ≤ t ∧ t ≤ r.temperature.max then
        10 + (if |t - r.temperature.optimal| ≤ 3 then 5 else 0)
      else 0

/-- Stated from the spec's wording of the humidity contribution:
`+8` if within `[min, max]`, `+4` more if within 10 of optimal. -/
def humContribSpec (wd : WeatherData) (r : WeatherReq) : ℚ :=
  match wd.humidity with
  | none => 0
  | some h =>
      if r.humidity.min ≤ h ∧ h ≤ r.humidity.max then
        8 + (if |h - r.humidity.optimal| ≤ 10 then 4 else 0)
      else 0

/-- Stated from the spec's wording of the rainfall contribution:
`+7` whenever rainfall is positive, `+5` more if within `[min, max]`. -/
def rainContribSpec (wd : WeatherData) (r : WeatherReq) : ℚ :=
  match wd.rainfall with
  | none => 0
  | some rn =>
      if 0 < rn then 7 + (if r.rainfall.min ≤ rn ∧ rn ≤ r.rainfall.max then 5 else 0)
      else 0

/-- C6: with both a snapshot and a tolerance table present, the weather
adjustment is the independent per-dimension sum of the spec's temperature,
humidity and rainfall contributions; and in the spec's scenario — snapshot
`{temperature: 45, humidity: 60, rainfall: 0}` against a tolerance with
`temperature.max = 35` — the temperature bonus is denied while the humidity
contribution is still granted in full. -/
theorem c6_weather_adjustment_decomposition (wd : WeatherData) (r : WeatherReq) :
    weatherScore (some wd) (some r)
        = tempContribSpec wd r + humContribSpec wd r + rainContribSpec wd r
      ∧ (r.temperature.max = 35 →
          weatherScore (some (WeatherData.mk (some 45) (some 60) (some 0))) (some r)
            = humContribSpec (WeatherData.mk (some 45) (some 60) (some 0)) r) := by
  constructor
  · rfl
  · intro hmax
    show tempContribSpec (WeatherData.mk (some 45) (some 60) (some 0)) r
        + humContribSpec (WeatherData.mk (some 45) (some 60) (some 0)) r
        + rainContribSpec (WeatherData.mk (some 45) (some 60) (some 0)) r
      = humContribSpec (WeatherData.mk (some 45) (some 60) (some 0)) r
    have htemp : tempContribSpec (WeatherData.mk (some 45) (some 60) (some 0)) r = 0 := by
      show (if r.temperature.min ≤ (45 : ℚ) ∧ (45 : ℚ) ≤ r.temperature.max then
              10 + (if |(45 : ℚ) - r.temperature.optimal| ≤ 3 then (5 : ℚ) else 0)
            else 0) = 0
      have hc : ¬(r.temperature.min ≤ (45 : ℚ) ∧ (45 : ℚ) ≤ 35) := by
        intro hand
        linarith [hand.2]
      rw [hmax, if_neg hc]
    have hrain : rainContribSpec (WeatherData.mk (some 45) (some 60) (some 0)) r = 0 := by
      show (if (0 : ℚ) < 0 then
              7 + (if r.rainfall.min ≤ (0 : ℚ) ∧ (0 : ℚ) ≤ r.rainfall.max then (5 : ℚ) else 0)
            else 0) = 0
      rw [if_neg (lt_irrefl (0 : ℚ))]
    rw [htemp, hrain]
    ring

/-- Witness for C6: against Rice's tolerance (`temperature.max = 35`) the
scenario snapshot scores exactly the humidity base bonus `8`. -/
theorem c6_witness :
    weatherScore (some (WeatherData.mk (some 45) (some 60) (some 0)))
        (some (WeatherReq.mk ⟨20, 35, 25⟩ ⟨60, 90, 75⟩ ⟨100, 250, 150⟩)) = 8 := by
  rw [(c6_weather_adjustment_decomposition (WeatherData.mk (some 45) (some 60) (some 0))
      (WeatherReq.mk ⟨20, 35, 25⟩ ⟨60, 90, 75⟩ ⟨100, 250, 150⟩)).2 rfl]
  with_unfolding_all decide

/-!
## Claim C2
-/

/-- Helper: rounding to two decimals cannot breach the `0.7 * base_price`
floor, because the floor itself is exactly representable at two decimals. -/
theorem price_floor_round2 (b : ℤ) (predicted : ℚ) :
    7 * (b : ℚ) / 10 ≤ round2 (max predicted (7 * (b : ℚ) / 10)) := by
  have h2 : 7 * (b : ℚ) / 10 ≤ max predicted (7 * (b : ℚ) / 10) := le_max_right _ _
  have h1 : ((70 * b : ℤ) : ℚ) ≤ 100 * max predicted (7 * (b : ℚ) / 10) := by
    push_cast
    linarith
  have h3 := le_round2 h1
  have h4 : ((70 * b : ℤ) : ℚ) / 100 = 7 * (b : ℚ) / 10 := by
    push_cast
    ring
  rw [h4] at h3
  exact h3

/-- C2: in both forecaster variants, for every crop, every day, and every
value of the per-day volatility draw and of the weather data (hence of the
weather factor), the emitted price — after rounding to two decimals — is at
least `0.7` times the crop's base price. -/
theorem c2_price_floor (crop : String) (days d0 : ℕ) (monthOf : ℕ → ℕ)
    (vol : ℕ → ℚ) (district : Option String) (wfetch : ℕ → Option WeatherData) :
    (∀ p ∈ predict_crop_prices crop days d0 monthOf vol,
        7 * (base_prices crop : ℚ) / 10 ≤ p.price)
      ∧ (∀ p ∈ predict_crop_prices_w crop days district wfetch d0 monthOf vol,
        7 * (base_prices crop : ℚ) / 10 ≤ p.price) := by
  constructor
  · intro p hp
    rcases List.mem_map.mp hp with ⟨j, _, rfl⟩
    exact price_floor_round2 (base_prices crop) _
  · intro p hp
    rcases List.mem_map.mp hp with ⟨j, _, rfl⟩
    exact price_floor_round2 (base_prices crop) _

/-- Witness for C2: the single forecast point of a one-day Rice forecast
with zero volatility has price `2424.84 ≥ 0.7 * 2200`. -/
theorem c2_witness :
    7 * (base_prices "Rice" : ℚ) / 10 ≤ (ForecastPoint.mk 1 (60621/25) 1).price := by
  have hlist : predict_crop_prices "Rice" 1 0 (fun _ => 1) (fun _ => 0)
      = [ForecastPoint.mk 1 (60621/25) 1] := by
    norm_num [predict_crop_prices, mkForecastPoint, base_prices, seasonal_factor, round2,
      rnearest, List.range_succ]
  exact (c2_price_floor "Rice" 1 0 (fun _ => 1) (fun _ => 0) none (fun _ => none)).1
    (ForecastPoint.mk 1 (60621/25) 1) (by rw [hlist]; exact List.mem_singleton_self _)

/-!
## Claim C3
-/

/-- C3: for every `days` in `[1, 30]` (and in fact for every calendar and
every volatility stream) the forecast has exactly `days` points, its dates
are exactly `d0 + 1, …, d0 + days` in order, strictly ascending, and every
point lies strictly in the future of the call date `d0`. -/
theorem c3_forecast_series_shape (crop : String) (days d0 : ℕ) (monthOf : ℕ → ℕ)
    (vol : ℕ → ℚ) (h1 : 1 ≤ days) (h2 : days ≤ 30) :
    (predict_crop_prices crop days d0 monthOf vol).length = days
      ∧ (predict_crop_prices crop days d0 monthOf vol).map (fun p => p.date)
          = (List.range days).map (fun j => d0 + (j + 1))
      ∧ ((predict_crop_prices crop days d0 monthOf vol).map
          (fun p => p.date)).Pairwise (fun a b => a < b)
      ∧ ∀ p ∈ predict_crop_prices crop days d0 monthOf vol, d0 < p.date := by
  have hdates : (predict_crop_prices crop days d0 monthOf vol).map (fun p => p.date)
      = (List.range days).map (fun j => d0 + (j + 1)) := by
    unfold predict_crop_prices
    rw [List.map_map]
    rfl
  refine ⟨?_, hdates, ?_, ?_⟩
  · unfold predict_crop_prices
    rw [List.length_map, List.length_range]
  · rw [hdates]
    exact (List.pairwise_lt_range days).map _ (fun a b hab => by omega)
  · intro p hp
    rcases List.mem_map.mp hp with ⟨j, _, rfl⟩
    show d0 < d0 + (j + 1)
    omega

/-- Witness for C3: the three-day Rice forecast from day 10 has dates
`[11, 12, 13]`. -/
theorem c3_witness :
    (predict_crop_prices "Rice" 3 10 (fun _ => 1) (fun _ => 0)).length = 3
      ∧ (predict_crop_prices "Rice" 3 10 (fun _ => 1) (fun _ => 0)).map (fun p => p.date)
          = (List.range 3).map (fun j => 10 + (j + 1))
      ∧ ((predict_crop_prices "Rice" 3 10 (fun _ => 1) (fun _ => 0)).map
          (fun p => p.date)).Pairwise (fun a b => a < b)
      ∧ ∀ p ∈ predict_crop_prices "Rice" 3 10 (fun _ => 1) (fun _ => 0), 10 < p.date :=
  c3_forecast_series_shape "Rice" 3 10 (fun _ => 1) (fun _ => 0)
    (by decide) (by decide)

/-!
## Claim C7
-/

/-- C7: a `days` value that is not an integer or lies outside `[1, 30]`
makes the endpoint report an HTTP 400 validation error (no series is
produced), while every integer `days` in `[1, 30]` together with a
non-empty (after stripping) crop name passes validation and yields the full
series. -/
theorem c7_days_validation (crop : String) (days : PyVal) (d0 : ℕ)
    (monthOf : ℕ → ℕ) (vol : ℕ → ℚ) :
    ((match days with
      | .int n => n < 1 ∨ 30 < n
      | .other => True) →
        ∃ msg, forecast_price crop days d0 monthOf vol = .error (400, msg))
      ∧ ∀ n : ℤ, days = .int n → 1 ≤ n → n ≤ 30 → strStrip crop ≠ "" →
          forecast_price crop days d0 monthOf vol
            = .ok (predict_crop_prices (strStrip crop) n.toNat d0 monthOf vol) := by
  constructor
  · intro hbad
    by_cases hc : strStrip crop = ""
    · exact ⟨"Crop name is required", by simp [forecast_price, hc]⟩
    · cases days with
      | other => exact ⟨"Days must be between 1 and 30", by simp [forecast_price, hc]⟩
      | int n =>
          refine ⟨"Days must be between 1 and 30", ?_⟩
          have hb : n < 1 ∨ 30 < n := hbad
          simp [forecast_price, hc, hb]
  · intro n hdays h1n h2n hcrop
    subst hdays
    have hrange : ¬(n < 1 ∨ 30 < n) := by omega
    have hlen : (predict_crop_prices (strStrip crop) n.toNat d0 monthOf vol).length
        = n.toNat := by
      unfold predict_crop_prices
      rw [List.length_map, List.length_range]
    have hne : predict_crop_prices (strStrip crop) n.toNat d0 monthOf vol ≠ [] := by
      intro hnil
      rw [hnil] at hlen
      simp at hlen
      omega
    simp [forecast_price, hcrop, hrange, hne]

/-- Witness for C7: `days = 0` is rejected with a 400, while `days = 2`
with crop `"Rice"` passes validation and returns the series. -/
theorem c7_witness :
    (∃ msg, forecast_price "Rice" (.int 0) 0 (fun _ => 1) (fun _ => 0)
        = .error (400, msg))
      ∧ forecast_price "Rice" (.int 2) 0 (fun _ => 1) (fun _ => 0)
          = .ok (predict_crop_prices (strStrip "Rice") (Int.toNat 2) 0
              (fun _ => 1) (fun _ => 0)) :=
  ⟨(c7_days_validation "Rice" (.int 0) 0 (fun _ => 1) (fun _ => 0)).1
      (by with_unfolding_all decide),
   (c7_days_validation "Rice" (.int 2) 0 (fun _ => 1) (fun _ => 0)).2 2 rfl
      (by decide) (by decide) (by with_unfolding_all decide)⟩

/-!
## Claim C8
-/

/-- C8 counterexample: `"rice"` is not a key of the reference tables, yet
the crop-analysis lookup does not return the documented default — the
case-insensitive match resolves it to the real Rice record (here ranked
first with score 100) instead. -/
theorem c8_counterexample :
    cropAnalysisTarget "rice" (recommend_crops (some 6) none none (fun _ => 0))
      ≠ defaultRec "rice" := by
  with_unfolding_all decide

/-- C8 (amended): a crop name not present in the reference tables is valid
input: the forecast uses the default base price of 2000 and still returns a
full series; and the crop-analysis lookup resolves to the documented
default profile (score 60, yield 2.5) provided the name also differs
case-insensitively from every table crop — a case variant of a known crop
resolves to that crop's record instead. -/
theorem c8_unknown_crop_defaults (name : String)
    (h1 : name ∉ cropNames)
    (h2 : strLower name ∉ cropNames.map strLower) :
    base_prices name = 2000
      ∧ (∀ days d0 : ℕ, ∀ monthOf : ℕ → ℕ, ∀ vol : ℕ → ℚ,
          (predict_crop_prices name days d0 monthOf vol).length = days)
      ∧ ∀ (month : Option ℕ) (state : Option String) (w : Option WeatherData)
          (market : String → ℚ),
          cropAnalysisTarget name (recommend_crops month state w market)
            = defaultRec name := by
  refine ⟨?_, ?_, ?_⟩
  · simp only [cropNames, crop_suitability, riceData, wheatData, cottonData,
      sugarcaneData, maizeData, onionData, potatoData, tomatoData, soybeanData,
      groundnutData, List.map_cons, List.map_nil, List.mem_cons, List.not_mem_nil,
      or_false, not_or] at h1
    obtain ⟨n1, n2, n3, n4, n5, n6, n7, n8, n9, n10⟩ := h1
    simp [base_prices, n1, n2, n3, n4, n5, n6, n7, n8, n9, n10]
  · intro days d0 monthOf vol
    unfold predict_crop_prices
    rw [List.length_map, List.length_range]
  · intro month state w market
    unfold cropAnalysisTarget
    have hfind : (recommend_crops month state w market).find?
        (fun r => strLower r.crop == strLower name) = none := by
      rw [List.find?_eq_none]
      intro r hr hbeq
      rw [beq_iff_eq] at hbeq
      exact h2 (hbeq ▸ List.mem_map_of_mem strLower (mem_recommend_crop_names hr))
    rw [hfind]
    rfl

/-- Witness for C8 (amended): `"Quinoa"` is unknown in every table and gets
the default price, a full series, and the default analysis profile. -/
theorem c8_witness :
    base_prices "Quinoa" = 2000
      ∧ (∀ days d0 : ℕ, ∀ monthOf : ℕ → ℕ, ∀ vol : ℕ → ℚ,
          (predict_crop_prices "Quinoa" days d0 monthOf vol).length = days)
      ∧ ∀ (month : Option ℕ) (state : Option String) (w : Option WeatherData)
          (market : String → ℚ),
          cropAnalysisTarget "Quinoa" (recommend_crops month state w market)
            = defaultRec "Quinoa" :=
  c8_unknown_crop_defaults "Quinoa" (by decide) (by with_unfolding_all decide)

/-!
## Claim C9
-/

/-- C9: a failing weather-provider call is swallowed locally.  With every
fetch failing, the forecaster produces exactly the no-weather-adjustment
series and still emits all `days` points, and the recommender scores
exactly as with no weather data and still emits its complete 5-element
result; no error surfaces to the caller. -/
theorem c9_weather_failure_swallowed (e : String) (crop : String) (days : ℕ)
    (district : Option String) (d0 : ℕ) (monthOf : ℕ → ℕ) (vol : ℕ → ℚ)
    (month : Option ℕ) (state : Option String) (market : String → ℚ) :
    predict_crop_prices_w crop days district
        (fun _ => get_weather_by_district (Except.error e)) d0 monthOf vol
      = predict_crop_prices_w crop days none (fun _ => none) d0 monthOf vol
    ∧ (predict_crop_prices_w crop days district
        (fun _ => get_weather_by_district (Except.error e)) d0 monthOf vol).length
        = days
    ∧ recommendCropsFetch (Except.error e) month state market
        = recommend_crops month state none market
    ∧ (recommendCropsFetch (Except.error e) month state market).length = 5 := by
  refine ⟨?_, ?_, rfl, recommend_crops_length month state none market⟩
  · unfold predict_crop_prices_w
    congr 1
    funext j
    simp only [get_weather_by_district, Except.toOption, ite_self]
  · unfold predict_crop_prices_w
    rw [List.length_map, List.length_range]

/-!
## Claim C10
-/

/-- C10: in crop-analysis mode, every requested crop that does not appear
(case-insensitively) among the returned top-5 recommendations — whether
unknown or merely ranked 6th or lower — receives the default profile with
score 60.0 and yield 2.5. -/
theorem c10_low_ranked_crop_defaults (crop : String) (month : Option ℕ)
    (state : Option String) (w : Option WeatherData) (market : String → ℚ)
    (h : strLower crop
        ∉ (recommend_crops month state w market).map (fun r => strLower r.crop)) :
    cropAnalysisTarget crop (recommend_crops month state w market)
      = defaultRec crop := by
  unfold cropAnalysisTarget
  have hfind : (recommend_crops month state w market).find?
      (fun r => strLower r.crop == strLower crop) = none := by
    rw [List.find?_eq_none]
    intro r hr hbeq
    rw [beq_iff_eq] at hbeq
    exact h (List.mem_map.mpr ⟨r, hr, hbeq⟩)
  rw [hfind]
  rfl

/-- Witness for C10: `"Cotton"` is a table crop, yet in January (with zero
market draws and no weather) it ranks below the top 5 and its analysis is
the indistinguishable default record. -/
theorem c10_witness :
    "Cotton" ∈ cropNames
      ∧ cropAnalysisTarget "Cotton" (recommend_crops (some 1) none none (fun _ => 0))
          = defaultRec "Cotton" :=
  ⟨by decide,
   c10_low_ranked_crop_defaults "Cotton" (some 1) none none (fun _ => 0)
     (by with_unfolding_all decide)⟩

end AgriTech
